import Mathlib

/-!
Verification of the dbus-mppsolar PI18 bridge (src/dbus-mppsolar.py).

The development shallowly embeds the command codec (the `set*` command
builders), the poll-cycle state update (`_update_PI18` / `_updateInternal`)
and the control write handler (`_change_PI18`) of `DbusMppSolarService`.
Machine floats of the source are modelled as exact rationals; Python
integers as `Int`.  A dbus object tree is modelled as a total valuation of
attribute paths, and the pair of published services plus the
`_queued_updates` list as a `ServiceState`.
-/

namespace MppSolar

/-! ## Python primitives used by the source -/

/-- Python `round` for a rational argument: round half to even (banker's
rounding), as used in `round(current / 10)`.  Ties of the form `k + 1/2`
are exactly representable, so the float version agrees with this exact
version at every tie. -/
def pyRound (q : ℚ) : ℤ :=
  if q - ⌊q⌋ < 1/2 then ⌊q⌋
  else if q - ⌊q⌋ > 1/2 then ⌊q⌋ + 1
  else if ⌊q⌋ % 2 = 0 then ⌊q⌋ else ⌊q⌋ + 1

/-- Python `int(...)` on a number: truncation toward zero, as used in
`int(voltage*10)`. -/
def pyTrunc (q : ℚ) : ℤ := if 0 ≤ q then ⌊q⌋ else ⌈q⌉

/-- Python `max(a, b)` on integers (returns the first argument on ties,
which coincides with the usual maximum). -/
def pymax (a b : ℤ) : ℤ := if b ≤ a then a else b

/-- Zero padding of a natural number's decimal digits to width `w`. -/
def padZeros (w : Nat) (s : String) : String :=
  String.mk (List.replicate (w - s.length) '0') ++ s

/-- Python `'{:0Nd}'.format(n)`: decimal representation of `n` zero-padded
to total width `w` (the sign occupies one column for negative `n`). -/
def zpad (w : Nat) (n : ℤ) : String :=
  if n < 0 then "-" ++ padZeros (w - 1) (toString (-n).toNat)
  else padZeros w (toString n.toNat)

/-- Python `0 & n` on an integer `n` (bitwise AND with zero), as it occurs
in the mis-parenthesised guard of `_update_PI18` (see
`outputCurrentGuard`). -/
def bandZero (n : ℤ) : ℤ := Int.land 0 n

/-! ## Command codec (`setOutputSource` .. `setMaxUtilityChargingCurrent`)

Each builder returns the list of command strings it sends through
`runInverterCommands`, in order.  `setMaxChargingVoltage` additionally
returns the Python-level success flag (the source returns `True` without
issuing any command for non-PI18 variants). -/

/-- Source `setOutputSource`: `'POP{:02d}'.format(source)`. -/
def setOutputSource (source : ℤ) : List String :=
  ["POP" ++ zpad 2 source]

/-- Source `setChargerPriority`: `'PCP{:02d}'.format(priority)`. -/
def setChargerPriority (priority : ℤ) : List String :=
  ["PCP" ++ zpad 2 priority]

/-- Source `setMaxChargingVoltage`: for PI18,
`'MCHGV{:d},{:d}'.format(int(voltage*10), int(voltage*10))`; otherwise no
command is sent and the call returns `True`. -/
def setMaxChargingVoltage (voltage : ℚ) (protocol : String) :
    List String × Bool :=
  if protocol = "PI18" then
    (["MCHGV" ++ toString (pyTrunc (voltage * 10)) ++ "," ++
        toString (pyTrunc (voltage * 10))], true)
  else ([], true)

/-- Source `setMaxChargingCurrent`: `roundedCurrent = round(current/10)*10`,
then `'MCHGC0{:04d}'` for PI18 and `'MNCHGC0{:04d}'` otherwise. -/
def setMaxChargingCurrent (current : ℤ) (protocol : String) : List String :=
  let roundedCurrent := pyRound ((current : ℚ) / 10) * 10
  if protocol = "PI18" then ["MCHGC0" ++ zpad 4 roundedCurrent]
  else ["MNCHGC0" ++ zpad 4 roundedCurrent]

/-- Source `setMaxUtilityChargingCurrent`:
`roundedCurrent = max(2, round(current/10)*10)`, then `'MUCHGC0{:04d}'`
of the rounded value for PI18 and `'MUCHGC{:03d}'` of the raw current
otherwise. -/
def setMaxUtilityChargingCurrent (current : ℤ) (protocol : String) :
    List String :=
  let roundedCurrent := pymax 2 (pyRound ((current : ℚ) / 10) * 10)
  if protocol = "PI18" then ["MUCHGC0" ++ zpad 4 roundedCurrent]
  else ["MUCHGC" ++ zpad 3 current]

example : setMaxUtilityChargingCurrent 25 "PI17" = ["MUCHGC025"] := by decide
example : zpad 4 40 = "0040" := by decide
example : pyRound ((25 : ℚ) / 10) = 2 := by norm_num [pyRound]
example : setMaxChargingCurrent 35 "PI18" = ["MCHGC0" ++ zpad 4 40] := by
  norm_num [setMaxChargingCurrent, pyRound]
example : setChargerPriority 3 = ["PCP03"] := by decide

/-! ## Published state, pending queue, and the merge point -/

/-- A dbus object tree: a valuation of attribute paths.  The published
numeric attributes of one service. -/
def Tree : Type := String → ℚ

/-- Set one path of a tree (`service[path] = value`). -/
def setPath (t : Tree) (p : String) (v : ℚ) : Tree :=
  fun q => if q = p then v else t q

/-- The combined externally visible state of `DbusMppSolarService`: the
inverter tree (`self._dbusinverter`), the charger tree (`self._dbusmppt`)
and the pending control-update queue (`self._queued_updates`). -/
structure ServiceState where
  inv : Tree
  mppt : Tree
  queue : List (String × ℚ)

/-- Apply a list of queued `(path, value)` pairs to a tree in order. -/
def applyQueue (t : Tree) (q : List (String × ℚ)) : Tree :=
  q.foldl (fun t pv => setPath t pv.1 pv.2) t

/-- Source `_updateInternal`: every queued `(path, value)` pair is written
to the inverter tree and to the charger tree, then the queue is cleared. -/
def updateInternal (s : ServiceState) : ServiceState :=
  ⟨applyQueue s.inv s.queue, applyQueue s.mppt s.queue, []⟩

/-! ## Decoded telemetry records (one per batch command) -/

/-- Decoded `ET` (energy totals) record; an absent field decodes to
`none`. -/
structure ETRecord where
  total_generated_energy : Option ℚ

/-- Decoded `GS` (general status) record.  `ac_output_active_power` is an
integer in the wire protocol; the other numeric fields may carry one
decimal. -/
structure GSRecord where
  battery_voltage : Option ℚ
  ac_output_voltage : Option ℚ
  ac_output_active_power : Option ℤ
  pv1_input_power : Option ℚ
  pv1_input_voltage : Option ℚ
  inverter_heat_sink_temperature : Option ℚ
  mppt1_charger_temperature : Option ℚ

/-- Decoded `MOD` (working mode) record. -/
structure MODRecord where
  working_mode : Option String

/-- Decoded `PIRI` (rated information) record.  It is decoded as part of
the batch but every use of its fields in `_update_PI18` is commented out. -/
structure PIRIRecord where
  max_charging_current : Option ℚ
  battery_bulk_voltage : Option ℚ

/-! ## The PI18 poll cycle (`_update_PI18`) -/

/-- Mapping of `working_mode` to the inverter `/State` code
(lines 333-339).  When the field is absent the source defaults `invMode`
to the prior numeric `i['/State']`, which is never equal to either string,
so the `else` branch (code 0) is taken. -/
def invStateFromMode : Option String → ℚ
  | some w => if w = "Battery mode" then 9 else if w = "Fault mode" then 2 else 0
  | none => 0

/-- The guard of line 349, `i['/Ac/Out/L1/V'] != 0 & i['/Ac/Out/L1/P'] != 0`.
Python parses it as the chained comparison
`V != (0 & P) and (0 & P) != 0` because `&` binds tighter than `!=`.
`bandZero` is applied to the integer stored at `/Ac/Out/L1/P` (the tree
holds it as a rational with denominator 1, whose numerator is that
integer). -/
def outputCurrentGuard (v p : ℚ) : Bool :=
  (v != ((bandZero p.num : ℤ) : ℚ)) && (bandZero p.num != (0 : ℤ))

/-- The guard of line 364:
`data.get('pv1_input_power') != None and data.get('pv1_input_power') > 0`. -/
def mppOperGuard : Option ℚ → Bool
  | some p => decide (p > 0)
  | none => false

/-- Success path of `_update_PI18` (lines 330-374): field-for-field update
of both trees from the four decoded records, followed by the
`_updateInternal` merge. -/
def updatePI18Success (s : ServiceState) (generated : ETRecord)
    (data : GSRecord) (mode : MODRecord) : ServiceState :=
  let i0 := s.inv
  let m0 := s.mppt
  let i1 := setPath i0 "/State" (invStateFromMode mode.working_mode)
  let i2 := setPath i1 "/Dc/0/Voltage"
    (data.battery_voltage.getD (i1 "/Dc/0/Voltage"))
  let m1 := setPath m0 "/Dc/0/Voltage"
    (data.battery_voltage.getD (m0 "/Dc/0/Voltage"))
  let i3 := setPath i2 "/Ac/Out/L1/V"
    (data.ac_output_voltage.getD (i2 "/Ac/Out/L1/V"))
  let i4 := setPath i3 "/Ac/Out/L1/P"
    ((data.ac_output_active_power.map fun z => (z : ℚ)).getD (i3 "/Ac/Out/L1/P"))
  let i5 := if outputCurrentGuard (i4 "/Ac/Out/L1/V") (i4 "/Ac/Out/L1/P") then
      setPath i4 "/Ac/Out/L1/I" (i4 "/Ac/Out/L1/P" / i4 "/Ac/Out/L1/V")
    else i4
  let m2 := setPath m1 "/State" (if data.pv1_input_power.getD 0 > 0 then 3 else 0)
  let m3 := setPath m2 "/Pv/V" (data.pv1_input_voltage.getD (m2 "/Pv/V"))
  let m4 := setPath m3 "/Yield/Power" (data.pv1_input_power.getD (m3 "/Yield/Power"))
  let m5 := setPath m4 "/Yield/User"
    ((generated.total_generated_energy.getD (m4 "/Yield/User")) / 1000)
  let m6 := setPath m5 "/Yield/System"
    ((generated.total_generated_energy.getD (m5 "/Yield/System")) / 1000)
  let m7 := setPath m6 "/MppOperationMode"
    (if mppOperGuard data.pv1_input_power then 2 else 0)
  let i6 := setPath i5 "/Temperature"
    (data.inverter_heat_sink_temperature.getD (i5 "/Temperature"))
  let m8 := setPath m7 "/DC/0/Temperature"
    (data.mppt1_charger_temperature.getD (m7 "/DC/0/Temperature"))
  updateInternal ⟨i6, m8, s.queue⟩

/-- One `_update_PI18` poll cycle.  The argument is `some` of the four
decoded records when the whole `ET`/`GS`/`MOD`/`PIRI` batch decoded, and
`none` on any transport or decode failure, in which case the source logs a
warning, still runs `_updateInternal`, and returns (lines 321-327). -/
def updatePI18 (s : ServiceState) :
    Option (ETRecord × GSRecord × MODRecord × PIRIRecord) → ServiceState
  | none => updateInternal s
  | some (generated, data, mode, _rated) => updatePI18Success s generated data mode

/-! ## The PI18 control write handler (`_change_PI18`) -/

/-- Result of a `_change_PI18` call: the command strings sent through the
transport in order, the diagnostics logged, the Python return value
(`True` accepts the change), and the service state afterwards. -/
structure ChangeResult where
  cmds : List String
  logs : List String
  accepted : Bool
  state : ServiceState

/-- Source `_change_PI18` (lines 376-402).  For `/Mode` the four mapped
values issue a charger-priority command followed by an output-source
command (the two calls are argument evaluations of the `format` call,
evaluated left to right); any other value only logs.  The
`_queued_updates.append((path, value))` of line 401 is outside the
`if value == ...` chain, so it runs for every `/Mode` write.  Interpolated
values are elided from the modelled log strings. -/
def changePI18 (s : ServiceState) (path : String) (value : ℚ) : ChangeResult :=
  if path = "/Mode" then
    let acts : List String × List String :=
      if value = 1 then
        (setChargerPriority 1 ++ setOutputSource 1, ["setting mode to Charger Only"])
      else if value = 2 then
        (setChargerPriority 0 ++ setOutputSource 2, ["setting mode to Inverter Only"])
      else if value = 3 then
        (setChargerPriority 1 ++ setOutputSource 2, ["setting mode to ON=Charge+Invert"])
      else if value = 4 then
        (setChargerPriority 3 ++ setOutputSource 2, ["setting mode to OFF"])
      else ([], ["setting mode not understood"])
    ⟨acts.1, acts.2, true, ⟨s.inv, s.mppt, s.queue ++ [(path, value)]⟩⟩
  else ⟨[], [], true, s⟩

/-! ## Basic lemmas about the embedding -/

theorem land_zero_left (n : ℤ) : Int.land 0 n = 0 := by
  show Int.land (Int.ofNat 0) n = 0
  cases n with
  | ofNat m => simp [Int.land]
  | negSucc m => simp [Int.land, Nat.ldiff, Nat.bitwise_zero_left]

theorem bandZero_eq_zero (n : ℤ) : bandZero n = 0 := land_zero_left n

/-- The mis-parenthesised guard of line 349 can never hold: its second
chained comparison asks `0 & P != 0`, and `0 & P` is always `0`. -/
theorem outputCurrentGuard_eq_false (v p : ℚ) :
    outputCurrentGuard v p = false := by
  simp [outputCurrentGuard, bandZero_eq_zero]

theorem setPath_self (t : Tree) (p : String) (v : ℚ) : setPath t p v p = v := by
  simp [setPath]

theorem setPath_ne (t : Tree) (p q : String) (v : ℚ) (h : q ≠ p) :
    setPath t p v q = t q := by
  simp [setPath, h]

theorem applyQueue_nil (t : Tree) : applyQueue t [] = t := rfl

theorem applyQueue_cons (t : Tree) (pv : String × ℚ) (q : List (String × ℚ)) :
    applyQueue t (pv :: q) = applyQueue (setPath t pv.1 pv.2) q := rfl

/-- Evaluating a tree after the queue has been applied: the value at `p`
is the last queued binding of `p` (the first binding of the reversed
queue) when one exists, and the prior tree value otherwise. -/
theorem applyQueue_eval (q : List (String × ℚ)) (t : Tree) (p : String) :
    applyQueue t q p = (List.lookup p q.reverse).getD (t p) := by
  induction q generalizing t with
  | nil => rfl
  | cons a q ih =>
    obtain ⟨a1, a2⟩ := a
    rw [applyQueue_cons, ih, List.reverse_cons, List.lookup_append]
    cases h : List.lookup p q.reverse with
    | some v => simp [h]
    | none =>
      by_cases hpa : p = a1
      · subst hpa
        simp [h, setPath]
      · have hbeq : (p == a1) = false := beq_false_of_ne hpa
        simp [h, List.lookup_cons, setPath, hpa, hbeq]

/-- Paths never mentioned in the queue are untouched by the merge. -/
theorem applyQueue_not_mem (q : List (String × ℚ)) (p : String)
    (h : ∀ pv ∈ q, pv.1 ≠ p) (t : Tree) : applyQueue t q p = t p := by
  rw [applyQueue_eval]
  have hnone : List.lookup p q.reverse = none := by
    rw [List.lookup_eq_none_iff]
    intro pv hpv
    simpa using (h pv (List.mem_reverse.mp hpv)).symm
  simp [hnone]

/-- Round-half-even specification of `pyRound`: the result is within one
half of the argument, and the distance is exactly one half only when the
result is even. -/
theorem pyRound_spec (q : ℚ) :
    |q - pyRound q| ≤ 1/2 ∧ (|q - pyRound q| = 1/2 → pyRound q % 2 = 0) := by
  have hf0 : (0 : ℚ) ≤ q - ⌊q⌋ := sub_nonneg.mpr (Int.floor_le q)
  have hf1 : q - ⌊q⌋ < 1 := by
    have := Int.lt_floor_add_one q
    linarith
  unfold pyRound
  split_ifs with h1 h2 h3
  · refine ⟨by rw [abs_of_nonneg hf0]; linarith, fun habs => ?_⟩
    rw [abs_of_nonneg hf0] at habs
    exact absurd habs (ne_of_lt h1)
  · push_cast
    refine ⟨by rw [abs_of_nonpos (by linarith)]; linarith, fun habs => ?_⟩
    rw [abs_of_nonpos (by linarith)] at habs
    exfalso; linarith
  · have htie : q - ⌊q⌋ = 1/2 := by linarith
    exact ⟨by rw [abs_of_nonneg hf0]; linarith, fun _ => h3⟩
  · have htie : q - ⌊q⌋ = 1/2 := by linarith
    push_cast
    refine ⟨by rw [abs_of_nonpos (by linarith)]; linarith, fun _ => ?_⟩
    omega

/-- The encoded charging current is a multiple of ten. -/
theorem roundedCurrent_dvd (c : ℤ) :
    (10 : ℤ) ∣ pyRound ((c : ℚ) / 10) * 10 :=
  dvd_mul_left 10 (pyRound ((c : ℚ) / 10))

/-- The encoded charging current is the nearest multiple of ten. -/
theorem roundedCurrent_close (c : ℤ) :
    |(c : ℚ) - (pyRound ((c : ℚ) / 10) * 10 : ℤ)| ≤ 5 := by
  have h := (pyRound_spec ((c : ℚ) / 10)).1
  have heq : (c : ℚ) - (pyRound ((c : ℚ) / 10) * 10 : ℤ) =
      ((c : ℚ) / 10 - pyRound ((c : ℚ) / 10)) * 10 := by
    push_cast
    ring
  rw [heq, abs_mul, abs_of_nonneg (by norm_num : (0 : ℚ) ≤ 10)]
  nlinarith [abs_nonneg ((c : ℚ) / 10 - pyRound ((c : ℚ) / 10))]

/-- A tie (distance exactly five) is resolved to the even multiple of
ten. -/
theorem roundedCurrent_tie (c : ℤ)
    (h : |(c : ℚ) - (pyRound ((c : ℚ) / 10) * 10 : ℤ)| = 5) :
    (20 : ℤ) ∣ pyRound ((c : ℚ) / 10) * 10 := by
  have h2 := (pyRound_spec ((c : ℚ) / 10)).2
  have heq : (c : ℚ) - (pyRound ((c : ℚ) / 10) * 10 : ℤ) =
      ((c : ℚ) / 10 - pyRound ((c : ℚ) / 10)) * 10 := by
    push_cast
    ring
  rw [heq, abs_mul, abs_of_nonneg (by norm_num : (0 : ℚ) ≤ 10)] at h
  have htie : |(c : ℚ) / 10 - pyRound ((c : ℚ) / 10)| = 1/2 := by linarith
  obtain ⟨k, hk⟩ := Int.dvd_of_emod_eq_zero (h2 htie)
  exact ⟨k, by rw [hk]; ring⟩

/-! ## Concrete states and records used by the scenario theorems -/

/-- A freshly initialized tree; every path referenced by the scenario
theorems starts at its `add_path` default `0`. -/
def freshTree : Tree := fun _ => 0

/-- A freshly initialized service with an empty pending queue. -/
def freshState : ServiceState := ⟨freshTree, freshTree, []⟩

/-- The decoded energy-totals record of the spec's end-to-end scenario. -/
def scenarioET : ETRecord := ⟨some 15000⟩

/-- The decoded general-status record of the spec's end-to-end scenario:
`battery_voltage: 52.1, ac_output_voltage: 230.0, ac_output_active_power:
500, pv1_input_power: 120, pv1_input_voltage: 60`. -/
def scenarioGS : GSRecord :=
  ⟨some (521/10), some 230, some 500, some 120, some 60, none, none⟩

/-- The decoded working-mode record of the spec's end-to-end scenario. -/
def scenarioMOD : MODRecord := ⟨some "Battery mode"⟩

/-- A rated-information record; its fields are never read. -/
def scenarioPIRI : PIRIRecord := ⟨none, none⟩

/-- An energy-totals record with `total_generated_energy` absent. -/
def emptyET : ETRecord := ⟨none⟩

/-- A general-status record with every field absent. -/
def emptyGS : GSRecord := ⟨none, none, none, none, none, none, none⟩

/-- A working-mode record with `working_mode` absent. -/
def emptyMOD : MODRecord := ⟨none⟩

/-- A rated-information record with every field absent. -/
def emptyPIRI : PIRIRecord := ⟨none, none⟩

/-- A charger tree that has already observed a generated-energy total of
15 kWh on both yield attributes. -/
def priorYieldTree : Tree :=
  fun p => if p = "/Yield/User" then 15 else if p = "/Yield/System" then 15 else 0

/-- A service whose charger group publishes `/Yield/User` and
`/Yield/System` as `15`, with an empty pending queue. -/
def priorYieldState : ServiceState := ⟨freshTree, priorYieldTree, []⟩

/-! ## Claim theorems -/

/-- **C1** (code bug).  The guard of line 349 is not the logical
conjunction of the two non-zero tests: Python parses
`V != 0 & P != 0` as `V != (0 & P) and (0 & P) != 0`, whose second
conjunct is always false, so the guard never holds and `/Ac/Out/L1/I` is
never derived.  At the spec's end-to-end scenario (`V = 230.0`,
`P = 500`) the published current stays at its prior value `0` instead of
the claimed `P / V = 500/230 ≈ 2.174`. -/
theorem c1_output_current_never_derived :
    (∀ v p : ℚ, outputCurrentGuard v p = false) ∧
    (updatePI18 freshState
        (some (scenarioET, scenarioGS, scenarioMOD, scenarioPIRI))).inv
        "/Ac/Out/L1/I" = 0 ∧
    (500 : ℚ) / 230 ≠ 0 := by
  refine ⟨outputCurrentGuard_eq_false, ?_, by norm_num⟩
  simp [updatePI18, updatePI18Success, updateInternal, applyQueue_nil,
    setPath_self, setPath_ne, outputCurrentGuard_eq_false, freshState,
    freshTree, scenarioET, scenarioGS, scenarioMOD, invStateFromMode,
    mppOperGuard]

/-- **C5** (code bug).  When `total_generated_energy` is present both
yield attributes are set to the value divided by 1000 (`15000 ↦ 15`), but
when the field is absent line 362/363 divides the *fallback* by 1000 as
well: starting from a published value of `15`, one cycle with the field
absent publishes `15/1000 = 0.015` instead of keeping `15`. -/
theorem c5_yield_fallback_rescaled :
    (updatePI18 freshState
        (some (scenarioET, scenarioGS, scenarioMOD, scenarioPIRI))).mppt
        "/Yield/User" = 15 ∧
    (updatePI18 freshState
        (some (scenarioET, scenarioGS, scenarioMOD, scenarioPIRI))).mppt
        "/Yield/System" = 15 ∧
    (updatePI18 priorYieldState
        (some (emptyET, emptyGS, emptyMOD, emptyPIRI))).mppt
        "/Yield/User" = 15/1000 ∧
    (updatePI18 priorYieldState
        (some (emptyET, emptyGS, emptyMOD, emptyPIRI))).mppt
        "/Yield/System" = 15/1000 ∧
    (15/1000 : ℚ) ≠ 15 := by
  refine ⟨?_, ?_, ?_, ?_, by norm_num⟩ <;>
    (simp [updatePI18, updatePI18Success, updateInternal, applyQueue_nil,
      setPath_self, setPath_ne, outputCurrentGuard_eq_false, freshState,
      freshTree, priorYieldState, priorYieldTree, scenarioET, scenarioGS,
      scenarioMOD, emptyET, emptyGS, emptyMOD, invStateFromMode, mppOperGuard]
      <;> norm_num)

/-- **C6**.  On a successful poll cycle with `working_mode` decoded, the
inverter `/State` is `9` for `"Battery mode"`, `2` for `"Fault mode"` and
`0` for any other value, independently of every other decoded field.  The
hypothesis records that no pending control update targets `/State`
(`_change_PI18` only ever queues `/Mode` pairs). -/
theorem c6_working_mode_to_state (s : ServiceState) (et : ETRecord)
    (gs : GSRecord) (ri : PIRIRecord) (w : String)
    (hq : ∀ pv ∈ s.queue, pv.1 ≠ "/State") :
    (updatePI18 s (some (et, gs, ⟨some w⟩, ri))).inv "/State" =
      if w = "Battery mode" then 9 else if w = "Fault mode" then 2 else 0 := by
  simp [updatePI18, updatePI18Success, updateInternal, setPath_self,
    setPath_ne, outputCurrentGuard_eq_false, invStateFromMode,
    applyQueue_not_mem s.queue "/State" hq]

/-- Witness for `c6_working_mode_to_state`: a fault-mode cycle on a fresh
service publishes `/State = 2`. -/
theorem c6_working_mode_to_state_witness :
    (updatePI18 freshState
        (some (emptyET, emptyGS, ⟨some "Fault mode"⟩, emptyPIRI))).inv
        "/State" = 2 := by
  have h := c6_working_mode_to_state freshState emptyET emptyGS emptyPIRI
    "Fault mode" (by simp [freshState])
  simpa using h

/-- A service state with one accepted `/Mode = 4` control update pending. -/
def pendingModeState : ServiceState := ⟨freshTree, freshTree, [("/Mode", 4)]⟩

/-- **C2** (counterexample).  A failed batch does not leave the state
byte-for-byte unchanged when the pending queue is non-empty: the failure
path still runs `_updateInternal`, so a pending `/Mode = 4` write is
flushed into the trees (`/Mode` goes from `0` to `4`). -/
theorem c2_failure_retention_counterexample :
    updatePI18 pendingModeState none ≠ pendingModeState := by
  intro h
  have h1 := congrArg (fun st => st.inv "/Mode") h
  simp [updatePI18, updateInternal, pendingModeState, applyQueue_cons,
    applyQueue_nil, setPath_self, freshTree] at h1

/-- **C2** (amended).  A failed batch leaves the poll-derived fields
unchanged, but still merges the pending control updates into both trees
and clears the queue; the state is byte-for-byte unchanged exactly when
the queue was empty. -/
theorem c2_failure_retention (s : ServiceState) :
    (s.queue = [] → updatePI18 s none = s) ∧
    (updatePI18 s none).queue = [] ∧
    (∀ p, (updatePI18 s none).inv p =
      (List.lookup p s.queue.reverse).getD (s.inv p)) ∧
    (∀ p, (updatePI18 s none).mppt p =
      (List.lookup p s.queue.reverse).getD (s.mppt p)) := by
  refine ⟨fun hq => ?_, rfl, fun p => applyQueue_eval s.queue s.inv p,
    fun p => applyQueue_eval s.queue s.mppt p⟩
  obtain ⟨i, m, q⟩ := s
  simp only at hq
  subst hq
  rfl

/-- Witness for `c2_failure_retention`: with an empty queue a failed
cycle is the identity. -/
theorem c2_failure_retention_witness : updatePI18 freshState none = freshState :=
  (c2_failure_retention freshState).1 rfl

/-- **C3** (counterexample).  A `/Mode` write of the unmapped value `5`
issues no command, but line 401 still appends `("/Mode", 5)` to the
queue, and the next merge publishes `/Mode = 5` on the inverter tree. -/
theorem c3_rejected_value_enqueued_counterexample :
    (changePI18 freshState "/Mode" 5).cmds = [] ∧
    (changePI18 freshState "/Mode" 5).state.queue = [("/Mode", 5)] ∧
    (updateInternal (changePI18 freshState "/Mode" 5).state).inv "/Mode" = 5 ∧
    (5 : ℚ) ≠ 0 := by
  refine ⟨?_, ?_, ?_, by norm_num⟩ <;>
    norm_num [changePI18, updateInternal, freshState, freshTree,
      applyQueue_cons, applyQueue_nil, setPath_self]

/-- **C3** (amended).  For `v` outside `{1,2,3,4}` the `/Mode` write
issues zero transport calls and logs a diagnostic, and the published
trees are unchanged at write time — but the pair `("/Mode", v)` is still
enqueued (and the write is accepted), so `v` is published at the next
merge. -/
theorem c3_rejected_mode_write (s : ServiceState) (v : ℚ)
    (h1 : v ≠ 1) (h2 : v ≠ 2) (h3 : v ≠ 3) (h4 : v ≠ 4) :
    (changePI18 s "/Mode" v).cmds = [] ∧
    (changePI18 s "/Mode" v).logs = ["setting mode not understood"] ∧
    (changePI18 s "/Mode" v).accepted = true ∧
    (changePI18 s "/Mode" v).state.inv = s.inv ∧
    (changePI18 s "/Mode" v).state.mppt = s.mppt ∧
    (changePI18 s "/Mode" v).state.queue = s.queue ++ [("/Mode", v)] := by
  simp [changePI18, h1, h2, h3, h4]

/-- Witness for `c3_rejected_mode_write` at the unmapped value `7`. -/
theorem c3_rejected_mode_write_witness :
    (changePI18 freshState "/Mode" 7).cmds = [] ∧
    (changePI18 freshState "/Mode" 7).logs = ["setting mode not understood"] ∧
    (changePI18 freshState "/Mode" 7).accepted = true ∧
    (changePI18 freshState "/Mode" 7).state.inv = freshState.inv ∧
    (changePI18 freshState "/Mode" 7).state.mppt = freshState.mppt ∧
    (changePI18 freshState "/Mode" 7).state.queue =
      freshState.queue ++ [("/Mode", 7)] :=
  c3_rejected_mode_write freshState 7 (by norm_num) (by norm_num)
    (by norm_num) (by norm_num)

/-- **C4**.  For `v ∈ {1,2,3,4}` the `/Mode` write issues exactly two
transport calls, charger-priority first and output-source second, with
the fixed code pairs of the directive table, and enqueues `("/Mode", v)`
for the next merge instead of publishing it immediately (both trees are
unchanged at write time). -/
theorem c4_mode_directive_table (s : ServiceState) (v : ℚ)
    (h : v = 1 ∨ v = 2 ∨ v = 3 ∨ v = 4) :
    (changePI18 s "/Mode" v).cmds =
      (if v = 1 then ["PCP01", "POP01"]
       else if v = 2 then ["PCP00", "POP02"]
       else if v = 3 then ["PCP01", "POP02"]
       else ["PCP03", "POP02"]) ∧
    (changePI18 s "/Mode" v).cmds.length = 2 ∧
    (changePI18 s "/Mode" v).accepted = true ∧
    (changePI18 s "/Mode" v).state.inv = s.inv ∧
    (changePI18 s "/Mode" v).state.mppt = s.mppt ∧
    (changePI18 s "/Mode" v).state.queue = s.queue ++ [("/Mode", v)] := by
  rcases h with rfl | rfl | rfl | rfl <;>
    exact ⟨rfl, rfl, rfl, rfl, rfl, rfl⟩

/-- Witness for `c4_mode_directive_table`: the spec scenario `/Mode = 4`
(priority code 3, then output-source code 2, queued not published). -/
theorem c4_mode_directive_table_witness :
    (changePI18 freshState "/Mode" 4).cmds =
      (if (4 : ℚ) = 1 then ["PCP01", "POP01"]
       else if (4 : ℚ) = 2 then ["PCP00", "POP02"]
       else if (4 : ℚ) = 3 then ["PCP01", "POP02"]
       else ["PCP03", "POP02"]) ∧
    (changePI18 freshState "/Mode" 4).cmds.length = 2 ∧
    (changePI18 freshState "/Mode" 4).accepted = true ∧
    (changePI18 freshState "/Mode" 4).state.inv = freshState.inv ∧
    (changePI18 freshState "/Mode" 4).state.mppt = freshState.mppt ∧
    (changePI18 freshState "/Mode" 4).state.queue =
      freshState.queue ++ [("/Mode", 4)] :=
  c4_mode_directive_table freshState 4 (Or.inr (Or.inr (Or.inr rfl)))

/-- **C10**.  At the merge point, a queued `(p, v)` pair that is the last
binding of `p` in the queue is written at the same path `p` into the
inverter tree and into the charger tree, and the queue is emptied. -/
theorem c10_merge_writes_both_groups (s : ServiceState)
    (q1 q2 : List (String × ℚ)) (p : String) (v : ℚ)
    (hs : s.queue = q1 ++ (p, v) :: q2) (hlast : ∀ w : ℚ, (p, w) ∉ q2) :
    (updateInternal s).inv p = v ∧ (updateInternal s).mppt p = v ∧
    (updateInternal s).queue = [] := by
  have h2 : List.lookup p q2.reverse = none := by
    rw [List.lookup_eq_none_iff]
    rintro ⟨p1, w⟩ hpv
    have hmem := List.mem_reverse.mp hpv
    have hne : p ≠ p1 := by
      rintro rfl
      exact hlast w hmem
    simpa using hne
  have hlook : List.lookup p s.queue.reverse = some v := by
    rw [hs, List.reverse_append, List.reverse_cons, List.lookup_append,
      List.lookup_append, h2]
    simp
  refine ⟨?_, ?_, rfl⟩ <;>
    simp [updateInternal, applyQueue_eval, hlook]

/-- Witness for `c10_merge_writes_both_groups`: the pending `/Mode = 4`
update is published into both device groups and the queue is cleared. -/
theorem c10_merge_writes_both_groups_witness :
    (updateInternal pendingModeState).inv "/Mode" = 4 ∧
    (updateInternal pendingModeState).mppt "/Mode" = 4 ∧
    (updateInternal pendingModeState).queue = [] :=
  c10_merge_writes_both_groups pendingModeState [] [] "/Mode" 4 rfl
    (by simp)

/-- **C7**.  The max utility charging current is encoded as
`MUCHGC0` + `max(2, round(c/10)*10)` zero-padded to four digits under
PI18 (nearest multiple of ten, clamped below at 2), while every other
variant encodes the raw integer current zero-padded to three digits with
neither rounding nor clamp. -/
theorem c7_utility_charging_current (c : ℤ) (_hc : 0 ≤ c)
    (proto : String) (hp : proto ≠ "PI18") :
    setMaxUtilityChargingCurrent c "PI18" =
      ["MUCHGC0" ++ zpad 4 (pymax 2 (pyRound ((c : ℚ) / 10) * 10))] ∧
    setMaxUtilityChargingCurrent c proto = ["MUCHGC" ++ zpad 3 c] ∧
    (10 : ℤ) ∣ pyRound ((c : ℚ) / 10) * 10 ∧
    |(c : ℚ) - (pyRound ((c : ℚ) / 10) * 10 : ℤ)| ≤ 5 ∧
    2 ≤ pymax 2 (pyRound ((c : ℚ) / 10) * 10) := by
  refine ⟨by simp [setMaxUtilityChargingCurrent],
    by simp [setMaxUtilityChargingCurrent, hp], roundedCurrent_dvd c,
    roundedCurrent_close c, ?_⟩
  unfold pymax
  split_ifs with h <;> omega

/-- Witness for `c7_utility_charging_current` at `c = 25`, other variant
`"PI17"`. -/
theorem c7_utility_charging_current_witness :
    setMaxUtilityChargingCurrent 25 "PI18" =
      ["MUCHGC0" ++ zpad 4 (pymax 2 (pyRound (((25 : ℤ) : ℚ) / 10) * 10))] ∧
    setMaxUtilityChargingCurrent 25 "PI17" = ["MUCHGC" ++ zpad 3 25] ∧
    (10 : ℤ) ∣ pyRound (((25 : ℤ) : ℚ) / 10) * 10 ∧
    |((25 : ℤ) : ℚ) - (pyRound (((25 : ℤ) : ℚ) / 10) * 10 : ℤ)| ≤ 5 ∧
    2 ≤ pymax 2 (pyRound (((25 : ℤ) : ℚ) / 10) * 10) :=
  c7_utility_charging_current 25 (by decide) "PI17" (by decide)

/-- **C8**.  The max charging current is encoded as `round(c/10)*10`
zero-padded to four digits, behind `MCHGC0` for PI18 and `MNCHGC0` for
every other variant (parallel-unit digit 0 in both); the encoded value is
the nearest multiple of ten, a tie being resolved to the even multiple
(banker's rounding). -/
theorem c8_max_charging_current (c : ℤ) (_hc : 0 ≤ c)
    (proto : String) (hp : proto ≠ "PI18") :
    setMaxChargingCurrent c "PI18" =
      ["MCHGC0" ++ zpad 4 (pyRound ((c : ℚ) / 10) * 10)] ∧
    setMaxChargingCurrent c proto =
      ["MNCHGC0" ++ zpad 4 (pyRound ((c : ℚ) / 10) * 10)] ∧
    (10 : ℤ) ∣ pyRound ((c : ℚ) / 10) * 10 ∧
    |(c : ℚ) - (pyRound ((c : ℚ) / 10) * 10 : ℤ)| ≤ 5 ∧
    (|(c : ℚ) - (pyRound ((c : ℚ) / 10) * 10 : ℤ)| = 5 →
      (20 : ℤ) ∣ pyRound ((c : ℚ) / 10) * 10) :=
  ⟨by simp [setMaxChargingCurrent], by simp [setMaxChargingCurrent, hp],
    roundedCurrent_dvd c, roundedCurrent_close c, roundedCurrent_tie c⟩

/-- Witness for `c8_max_charging_current` at `c = 25`, other variant
`"PI17"`. -/
theorem c8_max_charging_current_witness :
    setMaxChargingCurrent 25 "PI18" =
      ["MCHGC0" ++ zpad 4 (pyRound (((25 : ℤ) : ℚ) / 10) * 10)] ∧
    setMaxChargingCurrent 25 "PI17" =
      ["MNCHGC0" ++ zpad 4 (pyRound (((25 : ℤ) : ℚ) / 10) * 10)] ∧
    (10 : ℤ) ∣ pyRound (((25 : ℤ) : ℚ) / 10) * 10 ∧
    |((25 : ℤ) : ℚ) - (pyRound (((25 : ℤ) : ℚ) / 10) * 10 : ℤ)| ≤ 5 ∧
    (|((25 : ℤ) : ℚ) - (pyRound (((25 : ℤ) : ℚ) / 10) * 10 : ℤ)| = 5 →
      (20 : ℤ) ∣ pyRound (((25 : ℤ) : ℚ) / 10) * 10) :=
  c8_max_charging_current 25 (by decide) "PI17" (by decide)

/-- **C9**.  Under PI18, the max charging voltage issues exactly one
command `MCHGV` + `int(v*10)` + `,` + the same truncated integer (bulk and
float fields equal, truncation toward zero); every other variant issues no
command and still reports success. -/
theorem c9_max_charging_voltage (v : ℚ) (proto : String) (hp : proto ≠ "PI18") :
    setMaxChargingVoltage v "PI18" =
      (["MCHGV" ++ toString (pyTrunc (v * 10)) ++ "," ++
        toString (pyTrunc (v * 10))], true) ∧
    setMaxChargingVoltage v proto = ([], true) ∧
    |(pyTrunc (v * 10) : ℚ)| ≤ |v * 10| ∧
    |v * 10 - pyTrunc (v * 10)| < 1 := by
  have hfl := Int.floor_le (v * 10)
  have hfl2 := Int.lt_floor_add_one (v * 10)
  have hcl := Int.le_ceil (v * 10)
  have hcl2 := Int.ceil_lt_add_one (v * 10)
  refine ⟨by simp [setMaxChargingVoltage],
    by simp [setMaxChargingVoltage, hp], ?_, ?_⟩ <;>
    (unfold pyTrunc; split_ifs with h)
  · rw [abs_of_nonneg h, abs_of_nonneg
      (show (0 : ℚ) ≤ (⌊v * 10⌋ : ℚ) by exact_mod_cast Int.floor_nonneg.mpr h)]
    exact hfl
  · have h' : v * 10 < 0 := lt_of_not_ge h
    have hc0 : ((⌈v * 10⌉ : ℤ) : ℚ) ≤ 0 := by
      have hz : ⌈v * 10⌉ ≤ (0 : ℤ) :=
        Int.ceil_le.mpr (by exact_mod_cast le_of_lt h')
      exact_mod_cast hz
    rw [abs_of_nonpos hc0, abs_of_nonpos (le_of_lt h')]
    linarith
  · rw [abs_of_nonneg (by linarith)]
    linarith
  · rw [abs_of_nonpos (by linarith)]
    linarith

/-- Witness for `c9_max_charging_voltage` at `v = 55.2`, other variant
`"PI17"`. -/
theorem c9_max_charging_voltage_witness :
    setMaxChargingVoltage (552/10) "PI18" =
      (["MCHGV" ++ toString (pyTrunc ((552/10 : ℚ) * 10)) ++ "," ++
        toString (pyTrunc ((552/10 : ℚ) * 10))], true) ∧
    setMaxChargingVoltage (552/10) "PI17" = ([], true) ∧
    |(pyTrunc ((552/10 : ℚ) * 10) : ℚ)| ≤ |(552/10 : ℚ) * 10| ∧
    |(552/10 : ℚ) * 10 - pyTrunc ((552/10 : ℚ) * 10)| < 1 :=
  c9_max_charging_voltage (552/10) "PI17" (by decide)

end MppSolar
